import Mathlib

/-!
Shallow embedding of the resilient multi-provider completion dispatcher:
the retry module (`isOverloadedError`, `extractRetryAfter`,
`retryWithBackoff` with its delay computation, `DEFAULT_RETRY_CONFIG`),
the Anthropic provider adapter (`buildRequestBody`, `handleApiResponse`,
the trailing-system-message hoisting in `getChatCompletion`), and the
concurrency governor (`updateRateLimit` plus the admission gate).

Modelling conventions:
- JavaScript strings are Lean `String`s; `toLowerCase` is modelled as
  mapping `Char.toLower` over the characters (the source only matches
  ASCII needles, where the two coincide).
- The effectful retry loop is modelled by viewing the wrapped async
  function as a map from call index (0-based) to `Except E T`; the loop
  returns the final outcome together with the list of backoff delays it
  chose (the sleeps), in order.  The `onRetryStatus` callback and the
  logger are observational side channels that never affect control flow
  or data flow in the source, so they are not modelled.
- Errors are an arbitrary type `E` with a `msg : E → String` view, so
  that re-raising "the original error object unchanged" is expressible
  as returning the very same `E` value.
-/

/-- Model of JavaScript `s.toLowerCase()` as a character list (ASCII lowering,
which agrees with JS on the ASCII needles the source matches against). -/
def jsToLower (s : String) : List Char := s.toList.map Char.toLower

/-- Model of JavaScript `hay.includes(needle)`: substring containment. -/
def includesSub (hay : List Char) (needle : String) : Bool :=
  decide (needle.toList <:+: hay)

/-- Embedding of `isOverloadedError` (retryWithBackoff.ts lines 48-59):
lowercases the error message and checks the seven literal substrings. -/
def isOverloadedError (msg : String) : Bool :=
  let errorMessage := jsToLower msg
  includesSub errorMessage "status 529" ||
  includesSub errorMessage "status 429" ||
  includesSub errorMessage "status 503" ||
  includesSub errorMessage "overloaded" ||
  includesSub errorMessage "overload_error" ||
  includesSub errorMessage "rate limit" ||
  includesSub errorMessage "service unavailable"

/-- Retry configuration (retryWithBackoff.ts lines 20-31); the
`onRetryStatus` callback is observational only and not modelled. -/
structure RetryConfig where
  maxOverloadRetries : Nat
  overloadBackoffDelays : List Nat
  maxOtherRetries : Nat
  otherRetryDelay : Nat

/-- Embedding of `DEFAULT_RETRY_CONFIG` (retryWithBackoff.ts lines 36-41). -/
def DEFAULT_RETRY_CONFIG : RetryConfig :=
  { maxOverloadRetries := 5
    overloadBackoffDelays := [10000, 20000, 40000, 60000, 60000]
    maxOtherRetries := 3
    otherRetryDelay := 1000 }

/-- Membership in the character class `[:\s]` of the retry-after regular
expression (':' or whitespace). -/
def isSepChar (c : Char) : Bool := c = ':' || c.isWhitespace

/-- Case-insensitive literal matcher: strips the (lowercase) pattern from the
head of the input, comparing each input character lowered. -/
def stripCI : List Char → List Char → Option (List Char)
  | [], cs => some cs
  | _ :: _, [] => none
  | p :: ps, c :: cs => if c.toLower = p then stripCI ps cs else none

/-- `Number.parseInt` on a non-empty run of decimal digits. -/
def digitsToNat (ds : List Char) : Nat :=
  ds.foldl (fun n c => n * 10 + (c.toNat - '0'.toNat)) 0

/-- Attempt to match the regular expression `retry[- ]after[:\s]+(\d+)` (with
the `i` flag) at the head of the input, returning the captured integer.
Because the `[:\s]` class and `\d` are disjoint, the greedy quantifiers of the
source regex need no backtracking and maximal-munch scanning is faithful. -/
def matchRetryAfterAt (cs : List Char) : Option Nat :=
  match stripCI "retry".toList cs with
  | none => none
  | some r1 =>
    match r1 with
    | [] => none
    | c :: r2 =>
      if c = '-' || c = ' ' then
        match stripCI "after".toList r2 with
        | none => none
        | some r3 =>
          if (r3.takeWhile isSepChar).isEmpty then none
          else
            let rest := r3.dropWhile isSepChar
            if (rest.takeWhile Char.isDigit).isEmpty then none
            else some (digitsToNat (rest.takeWhile Char.isDigit))
      else none

/-- Leftmost match of the retry-after regular expression: the captured number
of seconds, or `none` when the message carries no hint. -/
def scanRetryAfter : List Char → Option Nat
  | [] => none
  | c :: cs =>
    match matchRetryAfterAt (c :: cs) with
    | some n => some n
    | none => scanRetryAfter cs

/-- Embedding of `extractRetryAfter` (retryWithBackoff.ts lines 65-72):
parse the hint from the message and convert seconds to milliseconds. -/
def extractRetryAfter (msg : String) : Option Nat :=
  (scanRetryAfter msg.toList).map (fun s => s * 1000)

/-- The schedule lookup `overloadBackoffDelays[min(attemptNumber - 1,
overloadBackoffDelays.length - 1)]` (retryWithBackoff.ts lines 153-154).
Out-of-range access (empty schedule) is totalised with 0. -/
def scheduleDelay (cfg : RetryConfig) (attemptNumber : Nat) : Nat :=
  cfg.overloadBackoffDelays.getD
    (min (attemptNumber - 1) (cfg.overloadBackoffDelays.length - 1)) 0

/-- Embedding of the delay calculation (retryWithBackoff.ts lines 143-159).
The source tests `if (retryAfter)`, so a parsed value of 0 ms is falsy and
falls through to the schedule, exactly like an absent hint. -/
def computeDelay (cfg : RetryConfig) (isOverloaded : Bool) (msg : String)
    (attemptNumber : Nat) : Nat :=
  if isOverloaded then
    match extractRetryAfter msg with
    | some retryAfter =>
      if retryAfter ≠ 0 then retryAfter else scheduleDelay cfg attemptNumber
    | none => scheduleDelay cfg attemptNumber
  else
    cfg.otherRetryDelay * 2 ^ (attemptNumber - 1)

/-- The delay the loop chooses for a failure with message `m` at attempt
number `a`: the classification flag fed to `computeDelay` is computed from
the same message, as in the source (line 130). -/
def chosenDelay (cfg : RetryConfig) (m : String) (a : Nat) : Nat :=
  computeDelay cfg (isOverloadedError m) m a

/-- Embedding of the `while (true)` loop of `retryWithBackoff`
(retryWithBackoff.ts lines 110-189).  `attempt` is the number of failures so
far (the source's `attemptNumber` before the increment); `fn` maps the
0-based call index to that call's outcome.  Returns the final outcome and
the list of backoff delays slept, in order.  `fuel` bounds the number of
retries still allowed; the loop itself retries at most
`max maxOverloadRetries maxOtherRetries` times, so with that initial fuel
the fuel-exhausted branch is unreachable (see the exhaustion theorems). -/
def retryGo {E T : Type} (msg : E → String) (cfg : RetryConfig)
    (fn : Nat → Except E T) (fuel attempt : Nat) : Except E T × List Nat :=
  match fn attempt with
  | Except.ok t => (Except.ok t, [])
  | Except.error e =>
    if (if isOverloadedError (msg e) then cfg.maxOverloadRetries
        else cfg.maxOtherRetries) < attempt + 1 then
      (Except.error e, [])
    else
      match fuel with
      | 0 => (Except.error e, [])
      | fuel' + 1 =>
        ((retryGo msg cfg fn fuel' (attempt + 1)).1,
          chosenDelay cfg (msg e) (attempt + 1)
            :: (retryGo msg cfg fn fuel' (attempt + 1)).2)

/-- Embedding of `retryWithBackoff` (retryWithBackoff.ts lines 110-189):
run the loop from zero failures with enough fuel for every reachable retry. -/
def retryWithBackoff {E T : Type} (msg : E → String) (cfg : RetryConfig)
    (fn : Nat → Except E T) : Except E T × List Nat :=
  retryGo msg cfg fn (max cfg.maxOverloadRetries cfg.maxOtherRetries) 0

/-- The expected delay trace of a run whose k-th call fails with message
`ms k`: starting from call index `start`, `len` further retries. -/
def delayTrace (cfg : RetryConfig) (ms : Nat → String) (start : Nat) :
    Nat → List Nat
  | 0 => []
  | len + 1 =>
    chosenDelay cfg (ms start) (start + 1) :: delayTrace cfg ms (start + 1) len

theorem delayTrace_length (cfg : RetryConfig) (ms : Nat → String) :
    ∀ len start, (delayTrace cfg ms start len).length = len := by
  intro len
  induction len with
  | zero => intro start; rfl
  | succ n ih => intro start; simp [delayTrace, ih]

/-- The retry cap the loop selects for the failure of call `k` (0-based):
`maxOverloadRetries` for overload-class errors, `maxOtherRetries` otherwise. -/
def capOf {E : Type} (msg : E → String) (cfg : RetryConfig) (e : Nat → E)
    (k : Nat) : Nat :=
  if isOverloadedError (msg (e k)) then cfg.maxOverloadRetries
  else cfg.maxOtherRetries

/-- Unfolding lemma: a failure past its cap re-raises the error at once. -/
theorem retryGo_fail_stop {E T : Type} (msg : E → String) (cfg : RetryConfig)
    (fn : Nat → Except E T) (fuel attempt : Nat) (e : E)
    (hf : fn attempt = Except.error e)
    (hgt : (if isOverloadedError (msg e) then cfg.maxOverloadRetries
        else cfg.maxOtherRetries) < attempt + 1) :
    retryGo msg cfg fn fuel attempt = (Except.error e, []) := by
  unfold retryGo
  rw [hf]
  simp only [if_pos hgt]

/-- Unfolding lemma: a failure within its cap sleeps and retries. -/
theorem retryGo_fail_cons {E T : Type} (msg : E → String) (cfg : RetryConfig)
    (fn : Nat → Except E T) (fuel attempt : Nat) (e : E)
    (hf : fn attempt = Except.error e)
    (hle : ¬ ((if isOverloadedError (msg e) then cfg.maxOverloadRetries
        else cfg.maxOtherRetries) < attempt + 1)) :
    retryGo msg cfg fn (fuel + 1) attempt
      = ((retryGo msg cfg fn fuel (attempt + 1)).1,
         chosenDelay cfg (msg e) (attempt + 1)
           :: (retryGo msg cfg fn fuel (attempt + 1)).2) := by
  conv_lhs => rw [retryGo]
  rw [hf]
  simp only [if_neg hle]

/-- Exhaustion shape of the loop: if every call fails, every failure before
call `n` is within its own cap, and call `n`'s failure exceeds its cap, then
the loop performs exactly `n` retries and re-raises the `n`-th error value. -/
theorem retryGo_exhaust {E T : Type} (msg : E → String) (cfg : RetryConfig)
    (fn : Nat → Except E T) (e : Nat → E)
    (hfail : ∀ k, fn k = Except.error (e k)) (n : Nat)
    (hretry : ∀ k, k < n → k + 1 ≤ capOf msg cfg e k)
    (hstop : capOf msg cfg e n < n + 1) :
    ∀ fuel a, a ≤ n → n - a ≤ fuel →
      retryGo msg cfg fn fuel a
        = (Except.error (e n), delayTrace cfg (fun k => msg (e k)) a (n - a)) := by
  intro fuel
  induction fuel with
  | zero =>
    intro a ha hf
    have han : a = n := by omega
    subst han
    rw [retryGo_fail_stop msg cfg fn 0 a (e a) (hfail a) (by simpa [capOf] using hstop)]
    simp [Nat.sub_self, delayTrace]
  | succ fuel' ih =>
    intro a ha hf
    rcases Nat.eq_or_lt_of_le ha with han | hlt
    · subst han
      rw [retryGo_fail_stop msg cfg fn (fuel' + 1) a (e a) (hfail a)
        (by simpa [capOf] using hstop)]
      simp [Nat.sub_self, delayTrace]
    · have hcap : a + 1 ≤ capOf msg cfg e a := hretry a hlt
      have hnot : ¬ ((if isOverloadedError (msg (e a)) then cfg.maxOverloadRetries
          else cfg.maxOtherRetries) < a + 1) := by
        simpa [capOf] using Nat.not_lt.mpr hcap
      have hrec := ih (a + 1) (by omega) (by omega)
      have hsub : n - a = (n - (a + 1)) + 1 := by omega
      rw [retryGo_fail_cons msg cfg fn fuel' a (e a) (hfail a) hnot, hrec, hsub]
      simp [delayTrace]

/-- Exhaustion shape of `retryWithBackoff`: the default fuel never runs out. -/
theorem retryWithBackoff_exhaust {E T : Type} (msg : E → String)
    (cfg : RetryConfig) (fn : Nat → Except E T) (e : Nat → E)
    (hfail : ∀ k, fn k = Except.error (e k)) (n : Nat)
    (hretry : ∀ k, k < n → k + 1 ≤ capOf msg cfg e k)
    (hstop : capOf msg cfg e n < n + 1) :
    retryWithBackoff msg cfg fn
      = (Except.error (e n), delayTrace cfg (fun k => msg (e k)) 0 n) := by
  have hn : n ≤ max cfg.maxOverloadRetries cfg.maxOtherRetries := by
    cases n with
    | zero => exact Nat.zero_le _
    | succ n' =>
      have h1 := hretry n' (Nat.lt_succ_self n')
      have h2 : capOf msg cfg e n' ≤ max cfg.maxOverloadRetries cfg.maxOtherRetries := by
        unfold capOf
        split
        · exact Nat.le_max_left _ _
        · exact Nat.le_max_right _ _
      omega
  have := retryGo_exhaust msg cfg fn e hfail n hretry hstop
    (max cfg.maxOverloadRetries cfg.maxOtherRetries) 0 (Nat.zero_le n) (by omega)
  simpa [retryWithBackoff] using this

/-- Claim C1: for a wrapped function that fails on every invocation with
errors of a single class, `retryWithBackoff` performs exactly
`maxOverloadRetries` retries (overload-class) or exactly `maxOtherRetries`
retries (other errors) — a retry happens for a failure exactly when its
attempt number is at most the applicable cap — and then re-raises the last
error value itself, unchanged and unwrapped. -/
theorem retryWithBackoff_single_class_exhaust {E T : Type} (msg : E → String)
    (cfg : RetryConfig) (fn : Nat → Except E T) (e : Nat → E) (b : Bool)
    (hfail : ∀ k, fn k = Except.error (e k))
    (hclass : ∀ k, isOverloadedError (msg (e k)) = b) :
    (retryWithBackoff msg cfg fn).1
      = Except.error (e (if b then cfg.maxOverloadRetries else cfg.maxOtherRetries))
    ∧ (retryWithBackoff msg cfg fn).2.length
      = (if b then cfg.maxOverloadRetries else cfg.maxOtherRetries) := by
  have hcap : ∀ k, capOf msg cfg e k
      = (if b then cfg.maxOverloadRetries else cfg.maxOtherRetries) := by
    intro k
    unfold capOf
    rw [hclass k]
  have h := retryWithBackoff_exhaust msg cfg fn e hfail
    (if b then cfg.maxOverloadRetries else cfg.maxOtherRetries)
    (fun k hk => by rw [hcap k]; omega)
    (by rw [hcap]; omega)
  refine ⟨?_, ?_⟩
  · rw [h]
  · rw [h]
    exact delayTrace_length cfg _ _ _

/-- Witness for C1: with the default configuration, a function that always
fails with the overload-class message "overloaded" (the k-th call failing
with error value k) is retried 5 times and the 6th failure's error value,
5, is re-raised itself. -/
theorem retryWithBackoff_single_class_exhaust_witness :
    (retryWithBackoff (fun _ : Nat => "overloaded") DEFAULT_RETRY_CONFIG
        (fun k => (Except.error k : Except Nat Unit))).1 = Except.error 5
    ∧ (retryWithBackoff (fun _ : Nat => "overloaded") DEFAULT_RETRY_CONFIG
        (fun k => (Except.error k : Except Nat Unit))).2.length = 5 :=
  retryWithBackoff_single_class_exhaust (fun _ => "overloaded")
    DEFAULT_RETRY_CONFIG (fun k => (Except.error k : Except Nat Unit))
    (fun k => k) true (fun _ => rfl)
    (fun _ => (by decide : isOverloadedError "overloaded" = true))

/-- Claim C10: the failure counter is shared across error classes while the
cap is re-selected per failure: for any mixed sequence of failures, the loop
re-raises at the first failure whose global failure number `m` exceeds the
cap selected for that failure's own class, after exactly `m - 1` retries,
even if fewer same-class failures than that cap occurred. -/
theorem retryWithBackoff_shared_counter {E T : Type} (msg : E → String)
    (cfg : RetryConfig) (fn : Nat → Except E T) (e : Nat → E) (m : Nat)
    (hfail : ∀ k, fn k = Except.error (e k)) (hm : 1 ≤ m)
    (hretry : ∀ j, 1 ≤ j → j < m → j ≤ capOf msg cfg e (j - 1))
    (hstop : capOf msg cfg e (m - 1) < m) :
    (retryWithBackoff msg cfg fn).1 = Except.error (e (m - 1))
    ∧ (retryWithBackoff msg cfg fn).2.length = m - 1 := by
  have h := retryWithBackoff_exhaust msg cfg fn e hfail (m - 1)
    (fun k hk => by
      have := hretry (k + 1) (by omega) (by omega)
      simpa using this)
    (by omega)
  refine ⟨?_, ?_⟩
  · rw [h]
  · rw [h]
    exact delayTrace_length cfg _ _ _

/-- Witness for C10: with the default configuration (overload cap 5, other
cap 3), three overload-class failures followed by a non-overload failure
("boom") terminate at global failure number 4 = maxOtherRetries + 1 with
error value 3 re-raised after 3 retries, although only one non-overload
failure ever occurred. -/
theorem retryWithBackoff_shared_counter_witness :
    (retryWithBackoff (fun k : Nat => if k < 3 then "overloaded" else "boom")
        DEFAULT_RETRY_CONFIG (fun k => (Except.error k : Except Nat Unit))).1
      = Except.error 3
    ∧ (retryWithBackoff (fun k : Nat => if k < 3 then "overloaded" else "boom")
        DEFAULT_RETRY_CONFIG (fun k => (Except.error k : Except Nat Unit))).2.length
      = 3 :=
  retryWithBackoff_shared_counter
    (fun k => if k < 3 then "overloaded" else "boom") DEFAULT_RETRY_CONFIG
    (fun k => (Except.error k : Except Nat Unit)) (fun k => k) 4
    (fun _ => rfl) (by omega)
    (fun j h1 h2 => by
      have hj : j = 1 ∨ j = 2 ∨ j = 3 := by omega
      rcases hj with rfl | rfl | rfl <;> decide)
    (by decide)

/-- Claim C3: for an overload-class error whose message carries no
retry-after hint and any attempt number at least 1, the chosen delay is
`overloadBackoffDelays[min(attemptNumber - 1, length - 1)]`; under the
default schedule, attempts 1 through 5 get exactly the indexed value and
every later attempt gets the clamped last value 60000. -/
theorem chosenDelay_overload_schedule (m : String) (cfg : RetryConfig)
    (a : Nat) (hov : isOverloadedError m = true)
    (hno : extractRetryAfter m = none) (ha : 1 ≤ a) :
    chosenDelay cfg m a
      = cfg.overloadBackoffDelays.getD
          (min (a - 1) (cfg.overloadBackoffDelays.length - 1)) 0
    ∧ (a ≤ 5 → chosenDelay DEFAULT_RETRY_CONFIG m a
        = [10000, 20000, 40000, 60000, 60000].getD (a - 1) 0)
    ∧ (5 < a → chosenDelay DEFAULT_RETRY_CONFIG m a = 60000) := by
  have hgen : ∀ c : RetryConfig, chosenDelay c m a
      = c.overloadBackoffDelays.getD
          (min (a - 1) (c.overloadBackoffDelays.length - 1)) 0 := by
    intro c
    simp [chosenDelay, computeDelay, hov, hno, scheduleDelay]
  have hD : DEFAULT_RETRY_CONFIG.overloadBackoffDelays
      = [10000, 20000, 40000, 60000, 60000] := rfl
  refine ⟨hgen cfg, ?_, ?_⟩
  · intro h5
    rw [hgen DEFAULT_RETRY_CONFIG, hD]
    have hmin : min (a - 1)
        (([10000, 20000, 40000, 60000, 60000] : List Nat).length - 1) = a - 1 := by
      simp only [List.length_cons, List.length_nil]
      omega
    rw [hmin]
  · intro h5
    rw [hgen DEFAULT_RETRY_CONFIG, hD]
    have hmin : min (a - 1)
        (([10000, 20000, 40000, 60000, 60000] : List Nat).length - 1) = 4 := by
      simp only [List.length_cons, List.length_nil]
      omega
    rw [hmin]
    rfl

/-- Witness for C3: the overload-class message "overloaded" carries no hint,
and attempt 7 with the default schedule gets the clamped value 60000. -/
theorem chosenDelay_overload_schedule_witness :
    chosenDelay DEFAULT_RETRY_CONFIG "overloaded" 7
      = DEFAULT_RETRY_CONFIG.overloadBackoffDelays.getD
          (min (7 - 1) (DEFAULT_RETRY_CONFIG.overloadBackoffDelays.length - 1)) 0
    ∧ (7 ≤ 5 → chosenDelay DEFAULT_RETRY_CONFIG "overloaded" 7
        = [10000, 20000, 40000, 60000, 60000].getD (7 - 1) 0)
    ∧ (5 < 7 → chosenDelay DEFAULT_RETRY_CONFIG "overloaded" 7 = 60000) :=
  chosenDelay_overload_schedule "overloaded" DEFAULT_RETRY_CONFIG 7
    (by decide) (by decide) (by decide)

/-- Claim C4: for a non-overload-class error and any attempt number at
least 1, the chosen delay is `otherRetryDelay * 2 ^ (attemptNumber - 1)`:
the base delay on attempt 1, twice it on attempt 2, four times it on
attempt 3, with no jitter. -/
theorem chosenDelay_other_exponential (cfg : RetryConfig) (m : String)
    (a : Nat) (hov : isOverloadedError m = false) (ha : 1 ≤ a) :
    chosenDelay cfg m a = cfg.otherRetryDelay * 2 ^ (a - 1)
    ∧ (a = 1 → chosenDelay cfg m a = cfg.otherRetryDelay)
    ∧ (a = 2 → chosenDelay cfg m a = 2 * cfg.otherRetryDelay)
    ∧ (a = 3 → chosenDelay cfg m a = 4 * cfg.otherRetryDelay) := by
  have hgen : chosenDelay cfg m a = cfg.otherRetryDelay * 2 ^ (a - 1) := by
    simp [chosenDelay, computeDelay, hov]
  refine ⟨hgen, ?_, ?_, ?_⟩
  · rintro rfl
    rw [hgen]
    ring
  · rintro rfl
    rw [hgen]
    ring
  · rintro rfl
    rw [hgen]
    ring

/-- Witness for C4: the non-overload message "boom" at attempt 3 with the
default configuration gets 1000 * 2 ^ 2 = 4 * 1000. -/
theorem chosenDelay_other_exponential_witness :
    chosenDelay DEFAULT_RETRY_CONFIG "boom" 3
      = DEFAULT_RETRY_CONFIG.otherRetryDelay * 2 ^ (3 - 1)
    ∧ (3 = 1 → chosenDelay DEFAULT_RETRY_CONFIG "boom" 3
        = DEFAULT_RETRY_CONFIG.otherRetryDelay)
    ∧ (3 = 2 → chosenDelay DEFAULT_RETRY_CONFIG "boom" 3
        = 2 * DEFAULT_RETRY_CONFIG.otherRetryDelay)
    ∧ (3 = 3 → chosenDelay DEFAULT_RETRY_CONFIG "boom" 3
        = 4 * DEFAULT_RETRY_CONFIG.otherRetryDelay) :=
  chosenDelay_other_exponential DEFAULT_RETRY_CONFIG "boom" 3
    (by decide) (by decide)

/-- Claim C5 counterexample: the overload-class message
"overloaded retry-after: 0" carries an explicit retry-after hint of 0
seconds, yet the chosen delay is the schedule value 10000 ms, not the
hinted 0 * 1000 = 0 ms — the hint does not take precedence when it is 0,
because `if (retryAfter)` treats the parsed 0 as falsy. -/
theorem chosenDelay_retry_after_hint_counterexample :
    isOverloadedError "overloaded retry-after: 0" = true
    ∧ extractRetryAfter "overloaded retry-after: 0" = some (0 * 1000)
    ∧ chosenDelay DEFAULT_RETRY_CONFIG "overloaded retry-after: 0" 1 = 10000
    ∧ ¬ chosenDelay DEFAULT_RETRY_CONFIG "overloaded retry-after: 0" 1
        = 0 * 1000 := by
  refine ⟨by decide, by decide, by decide, by decide⟩

/-- Claim C5 (amended): for an overload-class error whose message carries an
explicit retry-after hint of a nonzero number of seconds, the chosen delay
is that number of seconds converted to milliseconds, taking precedence over
the `overloadBackoffDelays` schedule for every configuration and attempt
number; a hint of exactly 0 seconds instead falls back to the schedule. -/
theorem chosenDelay_retry_after_hint (m : String) (s : Nat)
    (cfg : RetryConfig) (a : Nat) (hov : isOverloadedError m = true)
    (hhint : scanRetryAfter m.toList = some s) (hs : s ≠ 0) :
    chosenDelay cfg m a = s * 1000 := by
  have hex : extractRetryAfter m = some (s * 1000) := by
    unfold extractRetryAfter
    rw [hhint]
    rfl
  have hne : s * 1000 ≠ 0 := Nat.mul_ne_zero hs (by norm_num)
  simp [chosenDelay, computeDelay, hov, hex, hne]

/-- Witness for C5 (amended): the hinted 30 seconds become a 30000 ms delay
on attempt 1 under the default configuration, overriding the schedule's
10000 ms. -/
theorem chosenDelay_retry_after_hint_witness :
    chosenDelay DEFAULT_RETRY_CONFIG "overloaded retry-after: 30" 1
      = 30 * 1000 :=
  chosenDelay_retry_after_hint "overloaded retry-after: 30" 30
    DEFAULT_RETRY_CONFIG 1 (by decide) (by decide) (by decide)

/-- Claim C9: a retry-after hint of exactly 0 seconds is treated as if no
hint were present — the parsed 0 is falsy in the source's `if (retryAfter)`
test — so the chosen delay falls back to the `overloadBackoffDelays`
schedule entry for the current attempt. -/
theorem chosenDelay_zero_hint_fallback (m : String) (cfg : RetryConfig)
    (a : Nat) (hov : isOverloadedError m = true)
    (hhint : scanRetryAfter m.toList = some 0) :
    chosenDelay cfg m a
      = cfg.overloadBackoffDelays.getD
          (min (a - 1) (cfg.overloadBackoffDelays.length - 1)) 0 := by
  have hex : extractRetryAfter m = some 0 := by
    unfold extractRetryAfter
    rw [hhint]
    rfl
  simp [chosenDelay, computeDelay, hov, hex, scheduleDelay]

/-- Witness for C9: "overloaded retry-after: 0" at attempt 1 under the
default configuration gets the schedule entry, 10000 ms. -/
theorem chosenDelay_zero_hint_fallback_witness :
    chosenDelay DEFAULT_RETRY_CONFIG "overloaded retry-after: 0" 1
      = DEFAULT_RETRY_CONFIG.overloadBackoffDelays.getD
          (min (1 - 1) (DEFAULT_RETRY_CONFIG.overloadBackoffDelays.length - 1)) 0 :=
  chosenDelay_zero_hint_fallback "overloaded retry-after: 0"
    DEFAULT_RETRY_CONFIG 1 (by decide) (by decide)

/-- The seven substrings the specification lists for overload
classification. -/
def overloadNeedles : List String :=
  ["status 429", "status 503", "status 529", "overloaded", "overload_error",
   "rate limit", "service unavailable"]

/-- Claim C2: `isOverloadedError` returns true exactly when the lowercased
message contains at least one of the seven needles "status 429",
"status 503", "status 529", "overloaded", "overload_error", "rate limit",
"service unavailable"; when it contains none of them the classifier
returns false. -/
theorem isOverloadedError_iff_substring (m : String) :
    isOverloadedError m = true
      ↔ ∃ p ∈ overloadNeedles, p.toList <:+: jsToLower m := by
  simp only [isOverloadedError, includesSub, Bool.or_eq_true, decide_eq_true_eq,
    overloadNeedles, List.mem_cons, List.not_mem_nil, or_false,
    exists_eq_or_imp, exists_eq_left]
  tauto

/-- A conversation message: an ordered role/content pair. -/
structure ChatMessage where
  role : String
  content : String
  deriving DecidableEq

/-- The Anthropic wire-shape request body built by the adapter
(anthropic/index.ts lines 55-62); `max_tokens` is the literal 500 and the
model identifier is a configuration input. -/
structure AnthropicRequestBody where
  model : String
  messages : List ChatMessage
  system : Option String
  max_tokens : Nat
  deriving DecidableEq

/-- Embedding of `buildRequestBody` (anthropic/index.ts lines 55-62):
`messages.slice(0, -1)` is `dropLast`, and `messages[messages.length - 1]`
is the last element (the caller only passes `lastMessageIsSystem = true`
for a non-empty list, so the total `getLast?` view is faithful). -/
def buildRequestBody (anthropicModel : String) (messages : List ChatMessage)
    (lastMessageIsSystem : Bool) : AnthropicRequestBody :=
  { model := anthropicModel
    messages := if lastMessageIsSystem then messages.dropLast else messages
    system := if lastMessageIsSystem then
        (messages.getLast?).map (fun mm => mm.content)
      else none
    max_tokens := 500 }

/-- Embedding of the flag computed in `getChatCompletion`
(anthropic/index.ts line 82): `messages[messages.length - 1]?.role ===
'system'`, false for an empty conversation. -/
def lastMessageIsSystemOf (messages : List ChatMessage) : Bool :=
  match messages.getLast? with
  | some mm => mm.role == "system"
  | none => false

/-- The request body `getChatCompletion` sends (anthropic/index.ts
lines 82 and 100): the hoisting flag is computed from the conversation. -/
def anthropicRequestFor (anthropicModel : String)
    (messages : List ChatMessage) : AnthropicRequestBody :=
  buildRequestBody anthropicModel messages (lastMessageIsSystemOf messages)

/-- Claim C6: when the conversation's last message has role "system", the
request body hoists exactly that message's content into the dedicated
`system` field and the main messages list is the conversation without its
trailing message; when the last message has any other role (or the
conversation is empty), the messages list is the conversation unchanged
and the `system` field is absent. -/
theorem anthropicRequestFor_hoists_trailing_system (model : String)
    (msgs : List ChatMessage) :
    (∀ ini last, msgs = ini ++ [last] → last.role = "system" →
      (anthropicRequestFor model msgs).messages = ini
      ∧ (anthropicRequestFor model msgs).system = some last.content)
    ∧ (∀ ini last, msgs = ini ++ [last] → last.role ≠ "system" →
      (anthropicRequestFor model msgs).messages = msgs
      ∧ (anthropicRequestFor model msgs).system = none)
    ∧ (msgs = [] →
      (anthropicRequestFor model msgs).messages = msgs
      ∧ (anthropicRequestFor model msgs).system = none) := by
  refine ⟨?_, ?_, ?_⟩
  · rintro ini last rfl hrole
    have hlast : (ini ++ [last]).getLast? = some last := List.getLast?_concat ini
    have hflag : lastMessageIsSystemOf (ini ++ [last]) = true := by
      simp [lastMessageIsSystemOf, hlast, hrole]
    constructor
    · simp [anthropicRequestFor, buildRequestBody, hflag, List.dropLast_concat]
    · simp [anthropicRequestFor, buildRequestBody, hflag, hlast]
  · rintro ini last rfl hrole
    have hlast : (ini ++ [last]).getLast? = some last := List.getLast?_concat ini
    have hflag : lastMessageIsSystemOf (ini ++ [last]) = false := by
      simp [lastMessageIsSystemOf, hlast, hrole]
    constructor
    · simp [anthropicRequestFor, buildRequestBody, hflag]
    · simp [anthropicRequestFor, buildRequestBody, hflag]
  · rintro rfl
    constructor
    · simp [anthropicRequestFor, buildRequestBody, lastMessageIsSystemOf]
    · simp [anthropicRequestFor, buildRequestBody, lastMessageIsSystemOf]

/-- Witness for C6: a user message followed by a trailing system message is
hoisted — the body keeps only the user message in the list and carries the
system content in the dedicated field. -/
theorem anthropicRequestFor_hoists_trailing_system_witness :
    (anthropicRequestFor "claude"
        [⟨"user", "hi"⟩, ⟨"system", "be brief"⟩]).messages = [⟨"user", "hi"⟩]
    ∧ (anthropicRequestFor "claude"
        [⟨"user", "hi"⟩, ⟨"system", "be brief"⟩]).system = some "be brief" :=
  (anthropicRequestFor_hoists_trailing_system "claude"
      [⟨"user", "hi"⟩, ⟨"system", "be brief"⟩]).1
    [⟨"user", "hi"⟩] ⟨"system", "be brief"⟩ rfl rfl

theorem string_toList_append (s t : String) :
    (s ++ t).toList = s.toList ++ t.toList :=
  String.data_append s t

/-- Success predicate of a fetch `Response` (platform semantics:
`response.ok` is true exactly for statuses 200-299). -/
def responseOk (status : Nat) : Bool :=
  decide (200 ≤ status) && decide (status < 300)

/-- The error message `handleApiResponse` builds on a non-success response
(anthropic/index.ts lines 72-74). -/
def apiErrorMessage (status : Nat) (body : String) : String :=
  "HTTP error calling API: got status " ++ toString status
    ++ ". Response: " ++ body

/-- Embedding of `handleApiResponse` (anthropic/index.ts lines 67-79): on
`!response.ok || response.status >= 400` fail with the status and the raw
body text in the message; otherwise return the JSON envelope's extracted
text, which is modelled as the opaque `payload`. -/
def handleApiResponse (status : Nat) (body : String) (payload : String) :
    Except String String :=
  if !responseOk status || decide (400 ≤ status) then
    Except.error (apiErrorMessage status body)
  else
    Except.ok payload

/-- Claim C7: every non-success HTTP response makes the Anthropic adapter
fail with an error whose message contains the numeric status code and the
raw response body verbatim; in particular the error built for status 529
with body "overloaded_error" is classified overload-class by
`isOverloadedError`. -/
theorem handleApiResponse_error_preserves (status : Nat)
    (body payload : String) (h : ¬ (200 ≤ status ∧ status < 300)) :
    (handleApiResponse status body payload
        = Except.error (apiErrorMessage status body)
      ∧ (toString status).toList <:+: (apiErrorMessage status body).toList
      ∧ body.toList <:+: (apiErrorMessage status body).toList)
    ∧ isOverloadedError (apiErrorMessage 529 "overloaded_error") = true := by
  have hok : responseOk status = false := by
    simp only [responseOk, Bool.and_eq_false_iff, decide_eq_false_iff_not]
    omega
  have htl : (apiErrorMessage status body).toList
      = "HTTP error calling API: got status ".toList
        ++ ((toString status).toList
          ++ (". Response: ".toList ++ body.toList)) := by
    simp [apiErrorMessage, string_toList_append, List.append_assoc]
  refine ⟨⟨?_, ?_, ?_⟩, by decide⟩
  · simp [handleApiResponse, hok]
  · rw [htl]
    exact ⟨"HTTP error calling API: got status ".toList,
      ". Response: ".toList ++ body.toList, by simp [List.append_assoc]⟩
  · rw [htl]
    exact ⟨"HTTP error calling API: got status ".toList
        ++ (toString status).toList ++ ". Response: ".toList, [],
      by simp [List.append_assoc]⟩

/-- Witness for C7: status 529 with raw body "overloaded_error" produces the
error message verbatim, and that message is overload-class. -/
theorem handleApiResponse_error_preserves_witness :
    (handleApiResponse 529 "overloaded_error" ""
        = Except.error (apiErrorMessage 529 "overloaded_error")
      ∧ (toString 529).toList <:+: (apiErrorMessage 529 "overloaded_error").toList
      ∧ ("overloaded_error" : String).toList
          <:+: (apiErrorMessage 529 "overloaded_error").toList)
    ∧ isOverloadedError (apiErrorMessage 529 "overloaded_error") = true :=
  handleApiResponse_error_preserves 529 "overloaded_error" "" (by decide)

/-- Modelled from the spec: the admission gate built by the p-limit library
(whose source is not part of this repository) is, per spec section 4.1, a
counting semaphore — a fixed `limit` with a count of currently `active`
(admitted, unreleased) slots; an acquisition is admitted only while
`active < limit`. -/
structure Gate where
  limit : Nat
  active : Nat
  deriving DecidableEq

/-- The governor's process-wide state: the currently configured concurrency
value (`getCurrentConcurrency()`), the cached value `lastConcurrency`, the
current gate (`globalRateLimit`), and the retired gates — old gates whose
already-granted slots are still running to completion. -/
structure GovernorState where
  configured : Nat
  lastConcurrency : Nat
  gate : Gate
  retired : List Gate
  deriving DecidableEq

/-- Embedding of `updateRateLimit` (anthropic/index.ts lines 23-31): if the
configured concurrency differs from the cached value, discard the current
gate (it is retired with its active slots intact) and build a fresh gate
with the new limit and no active slots; otherwise leave the state alone. -/
def updateRateLimit (s : GovernorState) : GovernorState :=
  if s.configured ≠ s.lastConcurrency then
    { configured := s.configured
      lastConcurrency := s.configured
      gate := { limit := s.configured, active := 0 }
      retired := s.gate :: s.retired }
  else s

/-- One acquisition (anthropic/index.ts line 84, `updateRateLimit()(...)`):
refresh the gate, then take a slot on the (possibly new) current gate. -/
def acquireStep (s : GovernorState) : GovernorState :=
  let u := updateRateLimit s
  { u with gate := { limit := u.gate.limit, active := u.gate.active + 1 } }

/-- Modelled from the spec: the events the governor state participates in —
the operator reconfiguring the limit, a dispatch acquiring a slot (admitted
only while the refreshed gate is unsaturated), a dispatch on the current
gate completing, and a dispatch on a retired gate completing. -/
inductive GovStep : GovernorState → GovernorState → Prop where
  | configure (s : GovernorState) (n : Nat) :
      GovStep s { s with configured := n }
  | acquire (s : GovernorState)
      (h : (updateRateLimit s).gate.active < (updateRateLimit s).gate.limit) :
      GovStep s (acquireStep s)
  | release (s : GovernorState) (h : 0 < s.gate.active) :
      GovStep s { s with
        gate := { limit := s.gate.limit, active := s.gate.active - 1 } }
  | releaseRetired (s : GovernorState) (i : Nat) (h : i < s.retired.length) :
      GovStep s
        { s with
          retired := s.retired.set i
            { limit := (s.retired.get ⟨i, h⟩).limit,
              active := (s.retired.get ⟨i, h⟩).active - 1 } }

/-- The initial module state (anthropic/index.ts lines 9-10): gate and cache
built from the configured concurrency at load time. -/
def initGovernor (c0 : Nat) : GovernorState :=
  { configured := c0
    lastConcurrency := c0
    gate := { limit := c0, active := 0 }
    retired := [] }

/-- States reachable from the initial state by governor events. -/
inductive GovReach (c0 : Nat) : GovernorState → Prop where
  | init : GovReach c0 (initGovernor c0)
  | step {s t : GovernorState} : GovReach c0 s → GovStep s t → GovReach c0 t

/-- The total number of dispatches currently holding an admission slot,
across the current gate and all retired gates. -/
def heldSlots (s : GovernorState) : Nat :=
  s.gate.active + (s.retired.map Gate.active).sum

/-- Claim C8 counterexample: with initial concurrency 2, acquire two slots
and then reconfigure the limit down to 1; at that instant 2 dispatches hold
admission slots while the currently configured limit is 1, so the claimed
bound "held slots at most the currently configured limit at every instant"
fails. -/
theorem governor_configured_bound_counterexample :
    ∃ s, GovReach 2 s ∧ s.configured < heldSlots s := by
  refine ⟨{ acquireStep (acquireStep (initGovernor 2)) with configured := 1 },
    ?_, ?_⟩
  · exact GovReach.step
      (GovReach.step
        (GovReach.step GovReach.init (GovStep.acquire _ (by decide)))
        (GovStep.acquire _ (by decide)))
      (GovStep.configure _ 1)
  · decide

/-- The per-gate safety invariant the governor actually maintains. -/
def GovInv (s : GovernorState) : Prop :=
  s.gate.active ≤ s.gate.limit ∧ s.gate.limit = s.lastConcurrency
  ∧ ∀ g ∈ s.retired, g.active ≤ g.limit

theorem updateRateLimit_eq_self_iff (s : GovernorState) :
    updateRateLimit s = s ↔ s.configured = s.lastConcurrency := by
  constructor
  · intro h
    by_contra hne
    have hlast := congrArg GovernorState.lastConcurrency h
    simp only [updateRateLimit, if_pos hne] at hlast
    exact hne hlast
  · intro h
    simp [updateRateLimit, h]

theorem updateRateLimit_rebuild (s : GovernorState)
    (hne : s.configured ≠ s.lastConcurrency) :
    (updateRateLimit s).gate = { limit := s.configured, active := 0 }
    ∧ (updateRateLimit s).retired = s.gate :: s.retired := by
  simp [updateRateLimit, hne]

theorem govInv_updateRateLimit (s : GovernorState) (h : GovInv s) :
    GovInv (updateRateLimit s) := by
  unfold updateRateLimit
  split
  · refine ⟨Nat.zero_le _, rfl, ?_⟩
    intro g hg
    rcases List.mem_cons.mp hg with rfl | hmem
    · exact h.1
    · exact h.2.2 g hmem
  · exact h

theorem govInv_step (s t : GovernorState) (hst : GovStep s t) (h : GovInv s) :
    GovInv t := by
  cases hst with
  | configure n => exact h
  | acquire hlt =>
    have hu := govInv_updateRateLimit s h
    exact ⟨hlt, hu.2.1, hu.2.2⟩
  | release h0 =>
    exact ⟨Nat.le_trans (Nat.sub_le _ _) h.1, h.2.1, h.2.2⟩
  | releaseRetired i hi =>
    refine ⟨h.1, h.2.1, ?_⟩
    intro g hg
    rcases List.mem_or_eq_of_mem_set hg with hmem | rfl
    · exact h.2.2 g hmem
    · exact Nat.le_trans (Nat.sub_le _ _)
        (h.2.2 (s.retired.get ⟨i, hi⟩) (List.get_mem s.retired i hi))

theorem govInv_reach (c0 : Nat) (s : GovernorState) (h : GovReach c0 s) :
    GovInv s := by
  induction h with
  | init => exact ⟨Nat.zero_le _, rfl, by simp [initGovernor]⟩
  | step hr hst ih => exact govInv_step _ _ hst ih

/-- Claim C8 (amended): in every reachable governor state, each gate bounds
its own holders — the current gate never has more active slots than its
limit, and the same holds for every retired gate (slots granted under an
old gate run to completion unaffected, the old gate being retired with its
active count intact) — the current gate's limit is the cached concurrency
value, and an acquisition rebuilds the gate if and only if the configured
value differs from the cached one.  The number of holders is NOT bounded by
the currently configured limit at every instant (see the counterexample):
it is bounded per gate by the limit under which the slots were granted. -/
theorem governor_per_gate_bound (c0 : Nat) (s : GovernorState)
    (h : GovReach c0 s) :
    (s.gate.active ≤ s.gate.limit ∧ ∀ g ∈ s.retired, g.active ≤ g.limit)
    ∧ s.gate.limit = s.lastConcurrency
    ∧ (updateRateLimit s = s ↔ s.configured = s.lastConcurrency)
    ∧ (s.configured ≠ s.lastConcurrency →
        (updateRateLimit s).gate = { limit := s.configured, active := 0 }
        ∧ (updateRateLimit s).retired = s.gate :: s.retired) := by
  have hinv := govInv_reach c0 s h
  exact ⟨⟨hinv.1, hinv.2.2⟩, hinv.2.1, updateRateLimit_eq_self_iff s,
    updateRateLimit_rebuild s⟩

/-- Witness for C8 (amended): the invariant at a concrete reachable state —
two slots acquired under initial concurrency 3, then reconfigured to 1. -/
theorem governor_per_gate_bound_witness :
    (({ acquireStep (acquireStep (initGovernor 3)) with
          configured := 1 } : GovernorState).gate.active
        ≤ ({ acquireStep (acquireStep (initGovernor 3)) with
          configured := 1 } : GovernorState).gate.limit
      ∧ ∀ g ∈ ({ acquireStep (acquireStep (initGovernor 3)) with
          configured := 1 } : GovernorState).retired, g.active ≤ g.limit)
    ∧ ({ acquireStep (acquireStep (initGovernor 3)) with
          configured := 1 } : GovernorState).gate.limit
        = ({ acquireStep (acquireStep (initGovernor 3)) with
          configured := 1 } : GovernorState).lastConcurrency
    ∧ (updateRateLimit { acquireStep (acquireStep (initGovernor 3)) with
          configured := 1 }
          = { acquireStep (acquireStep (initGovernor 3)) with configured := 1 }
        ↔ ({ acquireStep (acquireStep (initGovernor 3)) with
          configured := 1 } : GovernorState).configured
          = ({ acquireStep (acquireStep (initGovernor 3)) with
          configured := 1 } : GovernorState).lastConcurrency)
    ∧ (({ acquireStep (acquireStep (initGovernor 3)) with
          configured := 1 } : GovernorState).configured
          ≠ ({ acquireStep (acquireStep (initGovernor 3)) with
          configured := 1 } : GovernorState).lastConcurrency →
        (updateRateLimit { acquireStep (acquireStep (initGovernor 3)) with
          configured := 1 }).gate
            = { limit := ({ acquireStep (acquireStep (initGovernor 3)) with
                configured := 1 } : GovernorState).configured, active := 0 }
        ∧ (updateRateLimit { acquireStep (acquireStep (initGovernor 3)) with
            configured := 1 }).retired
            = ({ acquireStep (acquireStep (initGovernor 3)) with
                configured := 1 } : GovernorState).gate
              :: ({ acquireStep (acquireStep (initGovernor 3)) with
                configured := 1 } : GovernorState).retired) :=
  governor_per_gate_bound 3
    { acquireStep (acquireStep (initGovernor 3)) with configured := 1 }
    (GovReach.step
      (GovReach.step
        (GovReach.step GovReach.init (GovStep.acquire _ (by decide)))
        (GovStep.acquire _ (by decide)))
      (GovStep.configure _ 1))
